import Mathlib

/-!
Statement dispatch and access gate of `InterpreterFactory`.

A verification development for `dbms/src/Interpreters/InterpreterFactory.cpp`:
the file-local access gate `throwIfNoAccess` and the dispatcher
`InterpreterFactory::get`.

The two functions are embedded as computations over an explicit `World`:
the `Context &` argument, the three `ProfileEvents` counters the file
touches, and the outgoing calls made so far (the gate and the handler
constructors).  A computation ends normally or by a thrown `Exception`;
whatever was done to the world before the throw stays done, as in C++.
-/

namespace DB

/-! ## Declarations the source file uses but does not define -/

/-- Modelled from the spec: the three error classes named by
`ErrorCodes::READONLY`, `ErrorCodes::UNKNOWN_TYPE_OF_QUERY` and
`ErrorCodes::QUERY_IS_PROHIBITED`.  The source only declares them
(`extern const int`); their numeric values live outside this unit, and the
spec's taxonomy keeps the three classes apart. -/
inductive ErrorCodes where
  | READONLY
  | UNKNOWN_TYPE_OF_QUERY
  | QUERY_IS_PROHIBITED
  deriving DecidableEq, Repr

/-- The exception `Exception(message, code)` thrown by this unit. -/
structure Exception where
  message : String
  code : ErrorCodes
  deriving DecidableEq, Repr

namespace ClientInfo

/-- Modelled from the spec: `ClientInfo::Interface`, declared outside this
unit; the spec lists the connection interface kinds native, HTTP, other. -/
inductive Interface where
  | NATIVE
  | HTTP
  | OTHER
  deriving DecidableEq, Repr

/-- Modelled from the spec: `ClientInfo::HTTPMethod`, declared outside this
unit; the spec lists the methods GET, POST, other. -/
inductive HTTPMethod where
  | GET
  | POST
  | OTHER
  deriving DecidableEq, Repr

end ClientInfo

/-- Modelled from the spec: the part of `ClientInfo` (declared outside this
unit) that `throwIfNoAccess` reads. -/
structure ClientInfo where
  interface : ClientInfo.Interface
  http_method : ClientInfo.HTTPMethod
  deriving DecidableEq, Repr

/-- Modelled from the spec: the part of `Settings` (declared outside this
unit) that this file reads.  `readonly` is a level, zero meaning unset; the
source tests it for truth, that is, for being non-zero. -/
structure Settings where
  readonly : Nat
  allow_ddl : Bool
  insert_allow_materialized_columns : Bool
  deriving DecidableEq, Repr

/-- Modelled from the spec: the part of `Context` (declared outside this
unit) reached through `getSettingsRef()` and `getClientInfo()`. -/
structure Context where
  getSettingsRef : Settings
  getClientInfo : ClientInfo
  deriving DecidableEq, Repr

/-- Dynamic type of the object behind an `ASTPtr`, as `typeid_cast` sees it:
`typeid_cast<T *>` answers non-null exactly when the object's type is `T`.
The nineteen classes tested by `InterpreterFactory::get` are listed by name;
`ASTOther n` stands for any other `IAST` subclass. -/
inductive ASTType where
  | ASTSelectQuery
  | ASTSelectWithUnionQuery
  | ASTInsertQuery
  | ASTCreateQuery
  | ASTDropQuery
  | ASTRenameQuery
  | ASTShowTablesQuery
  | ASTUseQuery
  | ASTSetQuery
  | ASTOptimizeQuery
  | ASTExistsQuery
  | ASTShowCreateTableQuery
  | ASTShowCreateDatabaseQuery
  | ASTDescribeQuery
  | ASTShowProcesslistQuery
  | ASTAlterQuery
  | ASTCheckQuery
  | ASTKillQueryQuery
  | ASTSystemQuery
  | ASTOther (n : Nat)
  deriving DecidableEq, Repr

/-- The statement behind an `ASTPtr` (taken non-null): its dynamic type and
the label its virtual `getID()` returns.  The payload of the node is used
only by the handlers and is not represented. -/
structure ASTPtr where
  typeid : ASTType
  getID : String
  deriving DecidableEq, Repr

/-- Modelled from the spec: `QueryProcessingStage::Enum`, declared outside
this unit; an opaque value that dispatch passes through unchanged. -/
abbrev QueryProcessingStage.Enum := Nat

/-- The list type `Names` of column names; `Names{}` is the empty list. -/
abbrev Names := List String

/-- A handler constructor call `std::make_unique<T>(args...)`: the handler
class `T` together with the arguments it is built from.  The handler
returned by dispatch is identified with the call that built it. -/
inductive IInterpreter where
  | InterpreterSelectQuery (query : ASTPtr) (context : Context)
      (required_result_column_names : Names) (to_stage : QueryProcessingStage.Enum)
  | InterpreterSelectWithUnionQuery (query : ASTPtr) (context : Context)
      (required_result_column_names : Names) (to_stage : QueryProcessingStage.Enum)
  | InterpreterInsertQuery (query : ASTPtr) (context : Context) (allow_materialized : Bool)
  | InterpreterCreateQuery (query : ASTPtr) (context : Context)
  | InterpreterDropQuery (query : ASTPtr) (context : Context)
  | InterpreterRenameQuery (query : ASTPtr) (context : Context)
  | InterpreterShowTablesQuery (query : ASTPtr) (context : Context)
  | InterpreterUseQuery (query : ASTPtr) (context : Context)
  | InterpreterSetQuery (query : ASTPtr) (context : Context)
  | InterpreterOptimizeQuery (query : ASTPtr) (context : Context)
  | InterpreterExistsQuery (query : ASTPtr) (context : Context)
  | InterpreterShowCreateQuery (query : ASTPtr) (context : Context)
  | InterpreterDescribeQuery (query : ASTPtr) (context : Context)
  | InterpreterShowProcesslistQuery (query : ASTPtr) (context : Context)
  | InterpreterAlterQuery (query : ASTPtr) (context : Context)
  | InterpreterCheckQuery (query : ASTPtr) (context : Context)
  | InterpreterKillQueryQuery (query : ASTPtr) (context : Context)
  | InterpreterSystemQuery (query : ASTPtr) (context : Context)
  deriving DecidableEq, Repr

/-- Behaviour of the handler constructors, which are outside this unit: for
each constructor call, `none` when the constructor completes and `some e`
when it throws `e`.  Dispatch neither catches nor rewrites such an `e`. -/
abbrev Constructors := IInterpreter → Option Exception

/-- The constructors that always complete. -/
def Constructors.succeed : Constructors := fun _ => none

/-- Outcome of one constructor call: the handler, or the exception thrown. -/
def Constructors.run (ctor : Constructors) (handler : IInterpreter) :
    Except Exception IInterpreter :=
  match ctor handler with
  | some e => Except.error e
  | none => Except.ok handler

namespace ProfileEvents

/-- The three events declared in the source's `namespace ProfileEvents`. -/
inductive Event where
  | Query
  | SelectQuery
  | InsertQuery
  deriving DecidableEq, Repr

/-- Values of the counters of the three events. -/
structure Counters where
  Query : Nat
  SelectQuery : Nat
  InsertQuery : Nat
  deriving DecidableEq, Repr

/-- Modelled from the spec: `ProfileEvents::increment(event)`, defined outside
this unit: the named counter goes up by one, the others stay. -/
def Counters.increment (c : Counters) : Event → Counters
  | Event.Query => { c with Query := c.Query + 1 }
  | Event.SelectQuery => { c with SelectQuery := c.SelectQuery + 1 }
  | Event.InsertQuery => { c with InsertQuery := c.InsertQuery + 1 }

end ProfileEvents

/-- An outgoing call made by this unit, recorded in the order of execution. -/
inductive Call where
  | throwIfNoAccess
  | make_unique (handler : IInterpreter)
  deriving DecidableEq, Repr

/-- Everything the two functions can read or change: the `Context &`
argument, the `ProfileEvents` counters, and the record of calls made. -/
structure World where
  context : Context
  counters : ProfileEvents.Counters
  calls : List Call
  deriving DecidableEq, Repr

/-- Computations over the `World` that may throw an `Exception`; the world
reached at the throw is kept. -/
abbrev M := ExceptT Exception (StateM World)

/-- Run a computation from a world: its outcome and the world it leaves. -/
def M.exec {α : Type} (m : M α) (w : World) : Except Exception α × World :=
  (ExceptT.run m).run w

/-- Read the `Context &` argument. -/
def getContext : M Context := do
  return (← get).context

/-- Record an outgoing call. -/
def record (c : Call) : M Unit :=
  modify fun w => { w with calls := w.calls ++ [c] }

/-- The call `ProfileEvents::increment(event)`. -/
def ProfileEvents.increment (event : ProfileEvents.Event) : M Unit :=
  modify fun w => { w with counters := w.counters.increment event }

/-- The call `std::make_unique<T>(args...)`: run the constructor, which
either completes, giving the handler, or throws.  The call is recorded
first; the record is an observation and decides nothing. -/
def make_unique (ctor : Constructors) (handler : IInterpreter) : M IInterpreter := do
  record (Call.make_unique handler)
  match ctor handler with
  | some e => throw e
  | none => return handler

/-! ## The access gate -/

/-- The file-local `throwIfNoAccess(Context & context)`, the context being
the one of the world.  The call is recorded first; the record is an
observation and decides nothing. -/
def throwIfNoAccess : M Unit := do
  record Call.throwIfNoAccess
  let context ← getContext
  if context.getSettingsRef.readonly ≠ 0 then
    let client_info := context.getClientInfo
    if client_info.interface = ClientInfo.Interface.HTTP
        ∧ client_info.http_method = ClientInfo.HTTPMethod.GET then
      throw (Exception.mk ("Cannot execute query in readonly mode. "
        ++ "For queries over HTTP, method GET implies readonly. You should use method POST for modifying queries.")
        ErrorCodes.READONLY)
    else
      throw (Exception.mk "Cannot execute query in readonly mode" ErrorCodes.READONLY)
  else if !context.getSettingsRef.allow_ddl then
    throw (Exception.mk "Cannot execute query. DDL queries are prohibited for the user"
      ErrorCodes.QUERY_IS_PROHIBITED)

/-! ## The dispatcher -/

/-- The source's `typeid_cast<T *>(query.get())` used as a condition: whether
the statement's dynamic type is exactly `T`. -/
def typeid_cast (T : ASTType) (query : ASTPtr) : Bool :=
  decide (query.typeid = T)

/-- The dispatcher `InterpreterFactory::get(ASTPtr & query, Context & context,
QueryProcessingStage::Enum stage)`; the context is the one of the world and
`ctor` is the behaviour of the handler constructors it calls. -/
def InterpreterFactory.get (ctor : Constructors) (query : ASTPtr)
    (stage : QueryProcessingStage.Enum) : M IInterpreter := do
  ProfileEvents.increment ProfileEvents.Event.Query
  let context ← getContext
  if typeid_cast ASTType.ASTSelectQuery query then
    /- This is internal part of ASTSelectWithUnionQuery. -/
    make_unique ctor (IInterpreter.InterpreterSelectQuery query context [] stage)
  else if typeid_cast ASTType.ASTSelectWithUnionQuery query then
    ProfileEvents.increment ProfileEvents.Event.SelectQuery
    make_unique ctor (IInterpreter.InterpreterSelectWithUnionQuery query context [] stage)
  else if typeid_cast ASTType.ASTInsertQuery query then
    ProfileEvents.increment ProfileEvents.Event.InsertQuery
    /- readonly is checked inside InterpreterInsertQuery -/
    let allow_materialized := context.getSettingsRef.insert_allow_materialized_columns
    make_unique ctor (IInterpreter.InterpreterInsertQuery query context allow_materialized)
  else if typeid_cast ASTType.ASTCreateQuery query then
    /- readonly and allow_ddl are checked inside InterpreterCreateQuery -/
    make_unique ctor (IInterpreter.InterpreterCreateQuery query context)
  else if typeid_cast ASTType.ASTDropQuery query then
    /- readonly and allow_ddl are checked inside InterpreterDropQuery -/
    make_unique ctor (IInterpreter.InterpreterDropQuery query context)
  else if typeid_cast ASTType.ASTRenameQuery query then
    throwIfNoAccess
    make_unique ctor (IInterpreter.InterpreterRenameQuery query context)
  else if typeid_cast ASTType.ASTShowTablesQuery query then
    make_unique ctor (IInterpreter.InterpreterShowTablesQuery query context)
  else if typeid_cast ASTType.ASTUseQuery query then
    make_unique ctor (IInterpreter.InterpreterUseQuery query context)
  else if typeid_cast ASTType.ASTSetQuery query then
    /- readonly is checked inside InterpreterSetQuery -/
    make_unique ctor (IInterpreter.InterpreterSetQuery query context)
  else if typeid_cast ASTType.ASTOptimizeQuery query then
    throwIfNoAccess
    make_unique ctor (IInterpreter.InterpreterOptimizeQuery query context)
  else if typeid_cast ASTType.ASTExistsQuery query then
    make_unique ctor (IInterpreter.InterpreterExistsQuery query context)
  else if typeid_cast ASTType.ASTShowCreateTableQuery query then
    make_unique ctor (IInterpreter.InterpreterShowCreateQuery query context)
  else if typeid_cast ASTType.ASTShowCreateDatabaseQuery query then
    make_unique ctor (IInterpreter.InterpreterShowCreateQuery query context)
  else if typeid_cast ASTType.ASTDescribeQuery query then
    make_unique ctor (IInterpreter.InterpreterDescribeQuery query context)
  else if typeid_cast ASTType.ASTShowProcesslistQuery query then
    make_unique ctor (IInterpreter.InterpreterShowProcesslistQuery query context)
  else if typeid_cast ASTType.ASTAlterQuery query then
    throwIfNoAccess
    make_unique ctor (IInterpreter.InterpreterAlterQuery query context)
  else if typeid_cast ASTType.ASTCheckQuery query then
    make_unique ctor (IInterpreter.InterpreterCheckQuery query context)
  else if typeid_cast ASTType.ASTKillQueryQuery query then
    make_unique ctor (IInterpreter.InterpreterKillQueryQuery query context)
  else if typeid_cast ASTType.ASTSystemQuery query then
    throwIfNoAccess
    make_unique ctor (IInterpreter.InterpreterSystemQuery query context)
  else
    throw (Exception.mk ("Unknown type of query: " ++ query.getID) ErrorCodes.UNKNOWN_TYPE_OF_QUERY)

end DB

namespace DB

/-! ## Observations on handlers and on sequences of dispatches -/

/-- Names of the handler classes this unit constructs. -/
inductive InterpreterType where
  | InterpreterSelectQuery
  | InterpreterSelectWithUnionQuery
  | InterpreterInsertQuery
  | InterpreterCreateQuery
  | InterpreterDropQuery
  | InterpreterRenameQuery
  | InterpreterShowTablesQuery
  | InterpreterUseQuery
  | InterpreterSetQuery
  | InterpreterOptimizeQuery
  | InterpreterExistsQuery
  | InterpreterShowCreateQuery
  | InterpreterDescribeQuery
  | InterpreterShowProcesslistQuery
  | InterpreterAlterQuery
  | InterpreterCheckQuery
  | InterpreterKillQueryQuery
  | InterpreterSystemQuery
  deriving DecidableEq, Repr

/-- The class of a handler, that is, which constructor built it. -/
def IInterpreter.type : IInterpreter → InterpreterType
  | IInterpreter.InterpreterSelectQuery _ _ _ _ => InterpreterType.InterpreterSelectQuery
  | IInterpreter.InterpreterSelectWithUnionQuery _ _ _ _ => InterpreterType.InterpreterSelectWithUnionQuery
  | IInterpreter.InterpreterInsertQuery _ _ _ => InterpreterType.InterpreterInsertQuery
  | IInterpreter.InterpreterCreateQuery _ _ => InterpreterType.InterpreterCreateQuery
  | IInterpreter.InterpreterDropQuery _ _ => InterpreterType.InterpreterDropQuery
  | IInterpreter.InterpreterRenameQuery _ _ => InterpreterType.InterpreterRenameQuery
  | IInterpreter.InterpreterShowTablesQuery _ _ => InterpreterType.InterpreterShowTablesQuery
  | IInterpreter.InterpreterUseQuery _ _ => InterpreterType.InterpreterUseQuery
  | IInterpreter.InterpreterSetQuery _ _ => InterpreterType.InterpreterSetQuery
  | IInterpreter.InterpreterOptimizeQuery _ _ => InterpreterType.InterpreterOptimizeQuery
  | IInterpreter.InterpreterExistsQuery _ _ => InterpreterType.InterpreterExistsQuery
  | IInterpreter.InterpreterShowCreateQuery _ _ => InterpreterType.InterpreterShowCreateQuery
  | IInterpreter.InterpreterDescribeQuery _ _ => InterpreterType.InterpreterDescribeQuery
  | IInterpreter.InterpreterShowProcesslistQuery _ _ => InterpreterType.InterpreterShowProcesslistQuery
  | IInterpreter.InterpreterAlterQuery _ _ => InterpreterType.InterpreterAlterQuery
  | IInterpreter.InterpreterCheckQuery _ _ => InterpreterType.InterpreterCheckQuery
  | IInterpreter.InterpreterKillQueryQuery _ _ => InterpreterType.InterpreterKillQueryQuery
  | IInterpreter.InterpreterSystemQuery _ _ => InterpreterType.InterpreterSystemQuery

/-- The statement a handler was built from. -/
def IInterpreter.query : IInterpreter → ASTPtr
  | IInterpreter.InterpreterSelectQuery query _ _ _ => query
  | IInterpreter.InterpreterSelectWithUnionQuery query _ _ _ => query
  | IInterpreter.InterpreterInsertQuery query _ _ => query
  | IInterpreter.InterpreterCreateQuery query _ => query
  | IInterpreter.InterpreterDropQuery query _ => query
  | IInterpreter.InterpreterRenameQuery query _ => query
  | IInterpreter.InterpreterShowTablesQuery query _ => query
  | IInterpreter.InterpreterUseQuery query _ => query
  | IInterpreter.InterpreterSetQuery query _ => query
  | IInterpreter.InterpreterOptimizeQuery query _ => query
  | IInterpreter.InterpreterExistsQuery query _ => query
  | IInterpreter.InterpreterShowCreateQuery query _ => query
  | IInterpreter.InterpreterDescribeQuery query _ => query
  | IInterpreter.InterpreterShowProcesslistQuery query _ => query
  | IInterpreter.InterpreterAlterQuery query _ => query
  | IInterpreter.InterpreterCheckQuery query _ => query
  | IInterpreter.InterpreterKillQueryQuery query _ => query
  | IInterpreter.InterpreterSystemQuery query _ => query

/-- The context a handler was built from. -/
def IInterpreter.context : IInterpreter → Context
  | IInterpreter.InterpreterSelectQuery _ context _ _ => context
  | IInterpreter.InterpreterSelectWithUnionQuery _ context _ _ => context
  | IInterpreter.InterpreterInsertQuery _ context _ => context
  | IInterpreter.InterpreterCreateQuery _ context => context
  | IInterpreter.InterpreterDropQuery _ context => context
  | IInterpreter.InterpreterRenameQuery _ context => context
  | IInterpreter.InterpreterShowTablesQuery _ context => context
  | IInterpreter.InterpreterUseQuery _ context => context
  | IInterpreter.InterpreterSetQuery _ context => context
  | IInterpreter.InterpreterOptimizeQuery _ context => context
  | IInterpreter.InterpreterExistsQuery _ context => context
  | IInterpreter.InterpreterShowCreateQuery _ context => context
  | IInterpreter.InterpreterDescribeQuery _ context => context
  | IInterpreter.InterpreterShowProcesslistQuery _ context => context
  | IInterpreter.InterpreterAlterQuery _ context => context
  | IInterpreter.InterpreterCheckQuery _ context => context
  | IInterpreter.InterpreterKillQueryQuery _ context => context
  | IInterpreter.InterpreterSystemQuery _ context => context

/-- What a constructor call passes besides the statement and the context. -/
inductive ExtraArguments where
  | nothing
  | names_and_stage (required_result_column_names : Names)
      (to_stage : QueryProcessingStage.Enum)
  | allow_materialized (flag : Bool)
  deriving DecidableEq, Repr

/-- The arguments a handler was built from besides the statement and the
context. -/
def IInterpreter.extra : IInterpreter → ExtraArguments
  | IInterpreter.InterpreterSelectQuery _ _ names stage => ExtraArguments.names_and_stage names stage
  | IInterpreter.InterpreterSelectWithUnionQuery _ _ names stage => ExtraArguments.names_and_stage names stage
  | IInterpreter.InterpreterInsertQuery _ _ flag => ExtraArguments.allow_materialized flag
  | IInterpreter.InterpreterCreateQuery _ _ => ExtraArguments.nothing
  | IInterpreter.InterpreterDropQuery _ _ => ExtraArguments.nothing
  | IInterpreter.InterpreterRenameQuery _ _ => ExtraArguments.nothing
  | IInterpreter.InterpreterShowTablesQuery _ _ => ExtraArguments.nothing
  | IInterpreter.InterpreterUseQuery _ _ => ExtraArguments.nothing
  | IInterpreter.InterpreterSetQuery _ _ => ExtraArguments.nothing
  | IInterpreter.InterpreterOptimizeQuery _ _ => ExtraArguments.nothing
  | IInterpreter.InterpreterExistsQuery _ _ => ExtraArguments.nothing
  | IInterpreter.InterpreterShowCreateQuery _ _ => ExtraArguments.nothing
  | IInterpreter.InterpreterDescribeQuery _ _ => ExtraArguments.nothing
  | IInterpreter.InterpreterShowProcesslistQuery _ _ => ExtraArguments.nothing
  | IInterpreter.InterpreterAlterQuery _ _ => ExtraArguments.nothing
  | IInterpreter.InterpreterCheckQuery _ _ => ExtraArguments.nothing
  | IInterpreter.InterpreterKillQueryQuery _ _ => ExtraArguments.nothing
  | IInterpreter.InterpreterSystemQuery _ _ => ExtraArguments.nothing

/-- The code of the exception that ended a computation, `none` when it ended
normally. -/
def errorCode {α : Type} : Except Exception α → Option ErrorCodes
  | Except.ok _ => none
  | Except.error e => some e.code

/-- The decision of the gate on a context: the outcome of `throwIfNoAccess`
run from a world with that context, no counter raised and no call made. -/
def throwIfNoAccess.decision (context : Context) : Except Exception Unit :=
  (throwIfNoAccess.exec ⟨context, ⟨0, 0, 0⟩, []⟩).1

/-- A caller that dispatches the statements of a list one after another,
each with its own stage, dropping the handlers; the first exception ends
the run. -/
def dispatchAll (ctor : Constructors) : List (ASTPtr × QueryProcessingStage.Enum) → M Unit
  | [] => pure ()
  | (query, stage) :: rest => do
    let _ ← InterpreterFactory.get ctor query stage
    dispatchAll ctor rest

/-! ## Concrete contexts, statements and worlds used to exercise the results -/

namespace Example

/-- No counter raised yet. -/
def zero : ProfileEvents.Counters := ⟨0, 0, 0⟩

/-- A world with the given settings and client, counters at zero, no call made. -/
def world (readonly : Nat) (allow_ddl : Bool) (interface : ClientInfo.Interface)
    (http_method : ClientInfo.HTTPMethod) : World :=
  ⟨⟨⟨readonly, allow_ddl, true⟩, ⟨interface, http_method⟩⟩, zero, []⟩

/-- Read-only and DDL-disallowed session over HTTP GET. -/
def httpGetReadonly : World :=
  world 1 false ClientInfo.Interface.HTTP ClientInfo.HTTPMethod.GET

/-- Read-only session (level 2) over the native interface, DDL allowed. -/
def nativeReadonly : World :=
  world 2 true ClientInfo.Interface.NATIVE ClientInfo.HTTPMethod.OTHER

/-- Read-only session over HTTP POST. -/
def httpPostReadonly : World :=
  world 1 true ClientInfo.Interface.HTTP ClientInfo.HTTPMethod.POST

/-- Session that is not read-only but has DDL disallowed, over HTTP GET. -/
def noDdl : World :=
  world 0 false ClientInfo.Interface.HTTP ClientInfo.HTTPMethod.GET

/-- Session without access restriction. -/
def unrestricted : World :=
  world 0 true ClientInfo.Interface.NATIVE ClientInfo.HTTPMethod.OTHER

/-- A statement of the given dynamic type. -/
def stmt (t : ASTType) : ASTPtr := ⟨t, "Query"⟩

end Example

/-! ## The classification of statement kinds, as the specification words it -/

namespace Spec

/-- The kinds whose dispatch runs the access gate before construction:
Rename, Optimize, Alter, System. -/
def centrallyGated : List ASTType :=
  [ASTType.ASTRenameQuery, ASTType.ASTOptimizeQuery, ASTType.ASTAlterQuery,
   ASTType.ASTSystemQuery]

/-- The kinds whose handler is trusted to check access itself:
Insert, Create, Drop, Set. -/
def selfGated : List ASTType :=
  [ASTType.ASTInsertQuery, ASTType.ASTCreateQuery, ASTType.ASTDropQuery, ASTType.ASTSetQuery]

/-- The kinds to which no access policy applies. -/
def ungated : List ASTType :=
  [ASTType.ASTSelectQuery, ASTType.ASTSelectWithUnionQuery, ASTType.ASTShowTablesQuery,
   ASTType.ASTUseQuery, ASTType.ASTExistsQuery, ASTType.ASTShowCreateTableQuery,
   ASTType.ASTShowCreateDatabaseQuery, ASTType.ASTDescribeQuery,
   ASTType.ASTShowProcesslistQuery, ASTType.ASTCheckQuery, ASTType.ASTKillQueryQuery]

/-- The handler class matching each statement kind of the closed set; `none`
for a kind outside it. -/
def handlerType : ASTType → Option InterpreterType
  | ASTType.ASTSelectQuery => some InterpreterType.InterpreterSelectQuery
  | ASTType.ASTSelectWithUnionQuery => some InterpreterType.InterpreterSelectWithUnionQuery
  | ASTType.ASTInsertQuery => some InterpreterType.InterpreterInsertQuery
  | ASTType.ASTCreateQuery => some InterpreterType.InterpreterCreateQuery
  | ASTType.ASTDropQuery => some InterpreterType.InterpreterDropQuery
  | ASTType.ASTRenameQuery => some InterpreterType.InterpreterRenameQuery
  | ASTType.ASTShowTablesQuery => some InterpreterType.InterpreterShowTablesQuery
  | ASTType.ASTUseQuery => some InterpreterType.InterpreterUseQuery
  | ASTType.ASTSetQuery => some InterpreterType.InterpreterSetQuery
  | ASTType.ASTOptimizeQuery => some InterpreterType.InterpreterOptimizeQuery
  | ASTType.ASTExistsQuery => some InterpreterType.InterpreterExistsQuery
  | ASTType.ASTShowCreateTableQuery => some InterpreterType.InterpreterShowCreateQuery
  | ASTType.ASTShowCreateDatabaseQuery => some InterpreterType.InterpreterShowCreateQuery
  | ASTType.ASTDescribeQuery => some InterpreterType.InterpreterDescribeQuery
  | ASTType.ASTShowProcesslistQuery => some InterpreterType.InterpreterShowProcesslistQuery
  | ASTType.ASTAlterQuery => some InterpreterType.InterpreterAlterQuery
  | ASTType.ASTCheckQuery => some InterpreterType.InterpreterCheckQuery
  | ASTType.ASTKillQueryQuery => some InterpreterType.InterpreterKillQueryQuery
  | ASTType.ASTSystemQuery => some InterpreterType.InterpreterSystemQuery
  | ASTType.ASTOther _ => none

/-- The closed set of statement kinds. -/
def closedSet : List ASTType :=
  [ASTType.ASTSelectQuery, ASTType.ASTSelectWithUnionQuery, ASTType.ASTInsertQuery,
   ASTType.ASTCreateQuery, ASTType.ASTDropQuery, ASTType.ASTRenameQuery,
   ASTType.ASTShowTablesQuery, ASTType.ASTUseQuery, ASTType.ASTSetQuery,
   ASTType.ASTOptimizeQuery, ASTType.ASTExistsQuery, ASTType.ASTShowCreateTableQuery,
   ASTType.ASTShowCreateDatabaseQuery, ASTType.ASTDescribeQuery,
   ASTType.ASTShowProcesslistQuery, ASTType.ASTAlterQuery, ASTType.ASTCheckQuery,
   ASTType.ASTKillQueryQuery, ASTType.ASTSystemQuery]

end Spec

end DB

namespace DB

/-! ## Running computations step by step -/

@[simp]
theorem exec_pure {α : Type} (a : α) (w : World) :
    (pure a : M α).exec w = (Except.ok a, w) := rfl

@[simp]
theorem exec_bind {α β : Type} (m : M α) (f : α → M β) (w : World) :
    (m >>= f).exec w =
      match m.exec w with
      | (Except.ok a, w1) => (f a).exec w1
      | (Except.error e, w1) => (Except.error e, w1) := by
  show (ExceptT.run (m >>= f)).run w = _
  simp only [M.exec, ExceptT.run_bind, StateT.run_bind]
  rcases h : StateT.run (ExceptT.run m) w with ⟨r, w1⟩
  cases r <;> simp [h]

@[simp]
theorem exec_throw {α : Type} (e : Exception) (w : World) :
    (throw e : M α).exec w = (Except.error e, w) := rfl

@[simp]
theorem exec_ite {α : Type} (c : Prop) [Decidable c] (t f : M α) (w : World) :
    (if c then t else f).exec w = if c then t.exec w else f.exec w := by
  split <;> rfl

@[simp]
theorem exec_getContext (w : World) : getContext.exec w = (Except.ok w.context, w) := rfl

@[simp]
theorem exec_record (c : Call) (w : World) :
    (record c).exec w = (Except.ok (), { w with calls := w.calls ++ [c] }) := rfl

@[simp]
theorem exec_increment (event : ProfileEvents.Event) (w : World) :
    (ProfileEvents.increment event).exec w
      = (Except.ok (), { w with counters := w.counters.increment event }) := rfl

@[simp]
theorem exec_make_unique (ctor : Constructors) (h : IInterpreter) (w : World) :
    (make_unique ctor h).exec w =
      (ctor.run h, { w with calls := w.calls ++ [Call.make_unique h] }) := by
  unfold make_unique Constructors.run
  rw [exec_bind, exec_record]
  cases ctor h <;> rfl

@[simp]
theorem run_eq_ok_iff (ctor : Constructors) (h h2 : IInterpreter) :
    ctor.run h = Except.ok h2 ↔ ctor h = none ∧ h = h2 := by
  unfold Constructors.run
  cases ctor h <;> simp

@[simp]
theorem run_eq_error_iff (ctor : Constructors) (h : IInterpreter) (e : Exception) :
    ctor.run h = Except.error e ↔ ctor h = some e := by
  unfold Constructors.run
  cases ctor h <;> simp


/-! ## The access gate: decision and reason text -/

/-- C6: the gate is the three-step decision: with `readonly` set it fails
with the read-only error; otherwise with `allow_ddl` false it fails with the
DDL-prohibited error; otherwise it succeeds.  So it succeeds exactly when
`readonly` is unset and `allow_ddl` is true, and a failure carries exactly
one of the two codes, the read-only one whenever `readonly` is set. -/
theorem throwIfNoAccess_three_steps (w : World) :
    (w.context.getSettingsRef.readonly ≠ 0 →
      ∃ e, (throwIfNoAccess.exec w).1 = Except.error e ∧ e.code = ErrorCodes.READONLY) ∧
    (w.context.getSettingsRef.readonly = 0 → w.context.getSettingsRef.allow_ddl = false →
      ∃ e, (throwIfNoAccess.exec w).1 = Except.error e
        ∧ e.code = ErrorCodes.QUERY_IS_PROHIBITED) ∧
    (w.context.getSettingsRef.readonly = 0 → w.context.getSettingsRef.allow_ddl = true →
      (throwIfNoAccess.exec w).1 = Except.ok ()) ∧
    ((throwIfNoAccess.exec w).1 = Except.ok () ↔
      w.context.getSettingsRef.readonly = 0 ∧ w.context.getSettingsRef.allow_ddl = true) ∧
    (∀ e, (throwIfNoAccess.exec w).1 = Except.error e →
      (e.code = ErrorCodes.READONLY ∧ w.context.getSettingsRef.readonly ≠ 0) ∨
      (e.code = ErrorCodes.QUERY_IS_PROHIBITED ∧ w.context.getSettingsRef.readonly = 0
        ∧ w.context.getSettingsRef.allow_ddl = false)) := by
  by_cases hro : w.context.getSettingsRef.readonly = 0
  · cases hddl : w.context.getSettingsRef.allow_ddl <;>
      simp [throwIfNoAccess, hro, hddl]
  · by_cases hget : w.context.getClientInfo.interface = ClientInfo.Interface.HTTP
        ∧ w.context.getClientInfo.http_method = ClientInfo.HTTPMethod.GET
    · simp [throwIfNoAccess, hro, hget]
    · simp [throwIfNoAccess, hro, hget]

/-- Witness of C6: the three steps on a read-only session, on a session with
only DDL disallowed, and on an unrestricted one. -/
theorem throwIfNoAccess_three_steps_witness :
    (∃ e, (throwIfNoAccess.exec Example.httpGetReadonly).1 = Except.error e
      ∧ e.code = ErrorCodes.READONLY) ∧
    (∃ e, (throwIfNoAccess.exec Example.noDdl).1 = Except.error e
      ∧ e.code = ErrorCodes.QUERY_IS_PROHIBITED) ∧
    (throwIfNoAccess.exec Example.unrestricted).1 = Except.ok () :=
  ⟨(throwIfNoAccess_three_steps Example.httpGetReadonly).1 (by decide),
   (throwIfNoAccess_three_steps Example.noDdl).2.1 (by decide) (by decide),
   (throwIfNoAccess_three_steps Example.unrestricted).2.2.1 (by decide) (by decide)⟩

/-- C7: with `readonly` set, the gate throws the GET-implies-readonly message
when the interface is HTTP and the method is GET, and the generic read-only
message in every other case; both exceptions carry the code `READONLY`, and
the two messages differ. -/
theorem throwIfNoAccess_readonly_message (w : World)
    (hro : w.context.getSettingsRef.readonly ≠ 0) :
    (w.context.getClientInfo.interface = ClientInfo.Interface.HTTP
        ∧ w.context.getClientInfo.http_method = ClientInfo.HTTPMethod.GET →
      (throwIfNoAccess.exec w).1 = Except.error
        ⟨"Cannot execute query in readonly mode. For queries over HTTP, method GET implies readonly. You should use method POST for modifying queries.",
         ErrorCodes.READONLY⟩) ∧
    (¬ (w.context.getClientInfo.interface = ClientInfo.Interface.HTTP
        ∧ w.context.getClientInfo.http_method = ClientInfo.HTTPMethod.GET) →
      (throwIfNoAccess.exec w).1 = Except.error
        ⟨"Cannot execute query in readonly mode", ErrorCodes.READONLY⟩) ∧
    (∀ (w2 : World) (e e2 : Exception),
      w2.context.getSettingsRef.readonly ≠ 0 →
      (w.context.getClientInfo.interface = ClientInfo.Interface.HTTP
        ∧ w.context.getClientInfo.http_method = ClientInfo.HTTPMethod.GET) →
      ¬ (w2.context.getClientInfo.interface = ClientInfo.Interface.HTTP
        ∧ w2.context.getClientInfo.http_method = ClientInfo.HTTPMethod.GET) →
      (throwIfNoAccess.exec w).1 = Except.error e →
      (throwIfNoAccess.exec w2).1 = Except.error e2 →
      e.message ≠ e2.message ∧ e.code = e2.code) := by
  refine ⟨fun hget => ?_, fun hget => ?_, fun w2 e e2 hro2 hget hget2 h1 h2 => ?_⟩
  · simp [throwIfNoAccess, hro, hget]
  · simp [throwIfNoAccess, hro, hget]
  · simp [throwIfNoAccess, hro, hget] at h1
    simp [throwIfNoAccess, hro2, hget2] at h2
    subst h1 h2
    exact ⟨by decide, rfl⟩

/-- Witness of C7: HTTP GET gets the POST hint, HTTP POST and the native
interface get the generic message. -/
theorem throwIfNoAccess_readonly_message_witness :
    (throwIfNoAccess.exec Example.httpGetReadonly).1 = Except.error
        ⟨"Cannot execute query in readonly mode. For queries over HTTP, method GET implies readonly. You should use method POST for modifying queries.",
         ErrorCodes.READONLY⟩ ∧
    (throwIfNoAccess.exec Example.httpPostReadonly).1 = Except.error
        ⟨"Cannot execute query in readonly mode", ErrorCodes.READONLY⟩ ∧
    (throwIfNoAccess.exec Example.nativeReadonly).1 = Except.error
        ⟨"Cannot execute query in readonly mode", ErrorCodes.READONLY⟩ :=
  ⟨(throwIfNoAccess_readonly_message Example.httpGetReadonly (by decide)).1 (by decide),
   (throwIfNoAccess_readonly_message Example.httpPostReadonly (by decide)).2.1 (by decide),
   (throwIfNoAccess_readonly_message Example.nativeReadonly (by decide)).2.1 (by decide)⟩

/-! ## Dispatch of the centrally gated kinds under a restrictive context -/

/-- C1: for a Rename, Optimize, Alter or System statement and a context with
`readonly` set, whatever `allow_ddl` is, dispatch fails with the read-only
error (code `READONLY`, not `QUERY_IS_PROHIBITED`), and the only call it has
made is the gate: no handler constructor was called. -/
theorem get_gated_readonly (ctor : Constructors) (query : ASTPtr)
    (stage : QueryProcessingStage.Enum) (w : World)
    (hkind : query.typeid ∈ Spec.centrallyGated)
    (hro : w.context.getSettingsRef.readonly ≠ 0) :
    ∃ e, ((InterpreterFactory.get ctor query stage).exec w).1 = Except.error e
      ∧ e.code = ErrorCodes.READONLY
      ∧ e.code ≠ ErrorCodes.QUERY_IS_PROHIBITED
      ∧ ((InterpreterFactory.get ctor query stage).exec w).2.calls
          = w.calls ++ [Call.throwIfNoAccess] := by
  obtain ⟨t, id⟩ := query
  simp only [Spec.centrallyGated, List.mem_cons, List.mem_singleton, List.not_mem_nil,
    or_false] at hkind
  by_cases hget : w.context.getClientInfo.interface = ClientInfo.Interface.HTTP
      ∧ w.context.getClientInfo.http_method = ClientInfo.HTTPMethod.GET
  · rcases hkind with h | h | h | h <;> subst h <;>
      simp [InterpreterFactory.get, typeid_cast, throwIfNoAccess, hro, hget]
  · rcases hkind with h | h | h | h <;> subst h <;>
      simp [InterpreterFactory.get, typeid_cast, throwIfNoAccess, hro, hget]

/-- Witness of C1: an Alter statement on a session that is read-only and has
DDL disallowed. -/
theorem get_gated_readonly_witness :
    ∃ e, ((InterpreterFactory.get Constructors.succeed
            (Example.stmt ASTType.ASTAlterQuery) 0).exec Example.httpGetReadonly).1
          = Except.error e
      ∧ e.code = ErrorCodes.READONLY
      ∧ e.code ≠ ErrorCodes.QUERY_IS_PROHIBITED
      ∧ ((InterpreterFactory.get Constructors.succeed
            (Example.stmt ASTType.ASTAlterQuery) 0).exec Example.httpGetReadonly).2.calls
          = Example.httpGetReadonly.calls ++ [Call.throwIfNoAccess] :=
  get_gated_readonly Constructors.succeed (Example.stmt ASTType.ASTAlterQuery) 0
    Example.httpGetReadonly (by decide) (by decide)

/-- C2: for a Rename, Optimize, Alter or System statement and a context with
`readonly` unset and `allow_ddl` false, whatever the client interface and
HTTP method are, dispatch fails with the DDL-prohibited error (code
`QUERY_IS_PROHIBITED`), and the only call it has made is the gate: no handler
constructor was called. -/
theorem get_gated_ddl_prohibited (ctor : Constructors) (query : ASTPtr)
    (stage : QueryProcessingStage.Enum) (w : World)
    (hkind : query.typeid ∈ Spec.centrallyGated)
    (hro : w.context.getSettingsRef.readonly = 0)
    (hddl : w.context.getSettingsRef.allow_ddl = false) :
    ((InterpreterFactory.get ctor query stage).exec w).1
        = Except.error ⟨"Cannot execute query. DDL queries are prohibited for the user",
            ErrorCodes.QUERY_IS_PROHIBITED⟩
      ∧ ((InterpreterFactory.get ctor query stage).exec w).2.calls
          = w.calls ++ [Call.throwIfNoAccess] := by
  obtain ⟨t, id⟩ := query
  simp only [Spec.centrallyGated, List.mem_cons, List.mem_singleton, List.not_mem_nil,
    or_false] at hkind
  rcases hkind with h | h | h | h <;> subst h <;>
    simp [InterpreterFactory.get, typeid_cast, throwIfNoAccess, hro, hddl]

/-- Witness of C2: a System statement over HTTP GET with only DDL disallowed. -/
theorem get_gated_ddl_prohibited_witness :
    ((InterpreterFactory.get Constructors.succeed
          (Example.stmt ASTType.ASTSystemQuery) 0).exec Example.noDdl).1
        = Except.error ⟨"Cannot execute query. DDL queries are prohibited for the user",
            ErrorCodes.QUERY_IS_PROHIBITED⟩
      ∧ ((InterpreterFactory.get Constructors.succeed
          (Example.stmt ASTType.ASTSystemQuery) 0).exec Example.noDdl).2.calls
          = Example.noDdl.calls ++ [Call.throwIfNoAccess] :=
  get_gated_ddl_prohibited Constructors.succeed (Example.stmt ASTType.ASTSystemQuery) 0
    Example.noDdl (by decide) (by decide) (by decide)

/-! ## Dispatch of the self-gated kinds -/

/-- C3: for an Insert, Create, Drop or Set statement and every context,
dispatch makes exactly one call, the constructor of the handler matching the
kind, built from this statement; it does not call the gate.  Its outcome is
the constructor's: the handler when the constructor completes, and otherwise
the very exception the constructor threw, so an error that dispatch returns
for these kinds always comes from the constructor. -/
theorem get_self_gated_skips_gate (ctor : Constructors) (query : ASTPtr)
    (stage : QueryProcessingStage.Enum) (w : World)
    (hkind : query.typeid ∈ Spec.selfGated) :
    ∃ h, ((InterpreterFactory.get ctor query stage).exec w).2.calls
          = w.calls ++ [Call.make_unique h]
      ∧ h.query = query
      ∧ Spec.handlerType query.typeid = some h.type
      ∧ (ctor h = none →
          ((InterpreterFactory.get ctor query stage).exec w).1 = Except.ok h)
      ∧ (∀ e, ((InterpreterFactory.get ctor query stage).exec w).1 = Except.error e →
          ctor h = some e) := by
  obtain ⟨t, id⟩ := query
  simp only [Spec.selfGated, List.mem_cons, List.mem_singleton, List.not_mem_nil,
    or_false] at hkind
  rcases hkind with h | h | h | h <;> subst h <;>
    simp [InterpreterFactory.get, typeid_cast, IInterpreter.query, IInterpreter.type,
      Spec.handlerType]

/-- Witness of C3: an Insert statement on a session that is read-only and has
DDL disallowed is handed to its constructor without any gate call. -/
theorem get_self_gated_skips_gate_witness :
    ∃ h, ((InterpreterFactory.get Constructors.succeed
            (Example.stmt ASTType.ASTInsertQuery) 0).exec Example.httpGetReadonly).2.calls
          = Example.httpGetReadonly.calls ++ [Call.make_unique h]
      ∧ h.query = Example.stmt ASTType.ASTInsertQuery
      ∧ Spec.handlerType (Example.stmt ASTType.ASTInsertQuery).typeid = some h.type
      ∧ (Constructors.succeed h = none →
          ((InterpreterFactory.get Constructors.succeed
            (Example.stmt ASTType.ASTInsertQuery) 0).exec Example.httpGetReadonly).1
            = Except.ok h)
      ∧ (∀ e, ((InterpreterFactory.get Constructors.succeed
            (Example.stmt ASTType.ASTInsertQuery) 0).exec Example.httpGetReadonly).1
            = Except.error e → Constructors.succeed h = some e) :=
  get_self_gated_skips_gate Constructors.succeed (Example.stmt ASTType.ASTInsertQuery) 0
    Example.httpGetReadonly (by decide)

/-! ## Dispatch without access restriction, and of unknown kinds -/

/-- C4: for a statement of any kind of the closed set and a context with
`readonly` unset and `allow_ddl` true, dispatch constructs the handler of the
class matching the kind from this statement and returns it (its outcome is
that of the constructor, which is the handler once the constructor
completes), and the counter `Query` has grown by exactly one. -/
theorem get_unrestricted_matching_handler (ctor : Constructors) (query : ASTPtr)
    (stage : QueryProcessingStage.Enum) (w : World)
    (hkind : query.typeid ∈ Spec.closedSet)
    (hro : w.context.getSettingsRef.readonly = 0)
    (hddl : w.context.getSettingsRef.allow_ddl = true) :
    ∃ h, ((InterpreterFactory.get ctor query stage).exec w).1 = ctor.run h
      ∧ (ctor h = none →
          ((InterpreterFactory.get ctor query stage).exec w).1 = Except.ok h)
      ∧ Spec.handlerType query.typeid = some h.type
      ∧ h.query = query
      ∧ ((InterpreterFactory.get ctor query stage).exec w).2.counters.Query
          = w.counters.Query + 1 := by
  obtain ⟨t, id⟩ := query
  cases t <;>
    simp [Spec.closedSet] at hkind <;>
    simp [InterpreterFactory.get, typeid_cast, throwIfNoAccess, hro, hddl,
      ProfileEvents.Counters.increment, Spec.handlerType] <;>
    refine ⟨_, rfl, ?_, rfl, rfl⟩ <;>
    simp

/-- Witness of C4: a ShowCreateDatabase statement on an unrestricted session
yields an `InterpreterShowCreateQuery`. -/
theorem get_unrestricted_matching_handler_witness :
    ∃ h, ((InterpreterFactory.get Constructors.succeed
            (Example.stmt ASTType.ASTShowCreateDatabaseQuery) 0).exec Example.unrestricted).1
          = Constructors.succeed.run h
      ∧ (Constructors.succeed h = none →
          ((InterpreterFactory.get Constructors.succeed
            (Example.stmt ASTType.ASTShowCreateDatabaseQuery) 0).exec Example.unrestricted).1
            = Except.ok h)
      ∧ Spec.handlerType (Example.stmt ASTType.ASTShowCreateDatabaseQuery).typeid
          = some h.type
      ∧ h.query = Example.stmt ASTType.ASTShowCreateDatabaseQuery
      ∧ ((InterpreterFactory.get Constructors.succeed
            (Example.stmt ASTType.ASTShowCreateDatabaseQuery) 0).exec
              Example.unrestricted).2.counters.Query
          = Example.unrestricted.counters.Query + 1 :=
  get_unrestricted_matching_handler Constructors.succeed
    (Example.stmt ASTType.ASTShowCreateDatabaseQuery) 0 Example.unrestricted
    (by decide) (by decide) (by decide)

/-- C5: for a statement whose kind is outside the closed set and every
context, dispatch fails with the exception whose message is
"Unknown type of query: " followed by the statement's `getID()` and whose
code is `UNKNOWN_TYPE_OF_QUERY`, a code other than the two access codes; it
has called neither the gate nor any constructor. -/
theorem get_unknown_kind (ctor : Constructors) (query : ASTPtr)
    (stage : QueryProcessingStage.Enum) (w : World)
    (hkind : query.typeid ∉ Spec.closedSet) :
    ((InterpreterFactory.get ctor query stage).exec w).1
        = Except.error ⟨"Unknown type of query: " ++ query.getID,
            ErrorCodes.UNKNOWN_TYPE_OF_QUERY⟩
      ∧ ErrorCodes.UNKNOWN_TYPE_OF_QUERY ≠ ErrorCodes.READONLY
      ∧ ErrorCodes.UNKNOWN_TYPE_OF_QUERY ≠ ErrorCodes.QUERY_IS_PROHIBITED
      ∧ ((InterpreterFactory.get ctor query stage).exec w).2.calls = w.calls := by
  obtain ⟨t, id⟩ := query
  cases t <;> simp [Spec.closedSet] at hkind
  simp [InterpreterFactory.get, typeid_cast]

/-- Witness of C5: a node of a class the dispatcher does not test. -/
theorem get_unknown_kind_witness :
    ((InterpreterFactory.get Constructors.succeed ⟨ASTType.ASTOther 0, "Identifier_x"⟩ 0).exec
          Example.unrestricted).1
        = Except.error ⟨"Unknown type of query: " ++ "Identifier_x",
            ErrorCodes.UNKNOWN_TYPE_OF_QUERY⟩
      ∧ ErrorCodes.UNKNOWN_TYPE_OF_QUERY ≠ ErrorCodes.READONLY
      ∧ ErrorCodes.UNKNOWN_TYPE_OF_QUERY ≠ ErrorCodes.QUERY_IS_PROHIBITED
      ∧ ((InterpreterFactory.get Constructors.succeed ⟨ASTType.ASTOther 0, "Identifier_x"⟩ 0).exec
          Example.unrestricted).2.calls = Example.unrestricted.calls :=
  get_unknown_kind Constructors.succeed ⟨ASTType.ASTOther 0, "Identifier_x"⟩ 0
    Example.unrestricted (by decide)

/-! ## Counters over a sequence of dispatches -/

/-- C8: dispatching a list of statements, each a Select, SelectWithUnion or
Insert, with the constructors completing, runs to the end; `Query` grows by
the length of the list, `SelectQuery` by the number of SelectWithUnion
statements (a plain Select adds nothing to it), and `InsertQuery` by the
number of Insert statements. -/
theorem dispatchAll_counters (ctor : Constructors)
    (qs : List (ASTPtr × QueryProcessingStage.Enum)) (w : World)
    (hctor : ∀ h, ctor h = none)
    (hkind : ∀ q ∈ qs, q.1.typeid ∈ [ASTType.ASTSelectQuery,
      ASTType.ASTSelectWithUnionQuery, ASTType.ASTInsertQuery]) :
    ((dispatchAll ctor qs).exec w).1 = Except.ok ()
      ∧ ((dispatchAll ctor qs).exec w).2.counters.Query = w.counters.Query + qs.length
      ∧ ((dispatchAll ctor qs).exec w).2.counters.SelectQuery
          = w.counters.SelectQuery
            + qs.countP (fun q => decide (q.1.typeid = ASTType.ASTSelectWithUnionQuery))
      ∧ ((dispatchAll ctor qs).exec w).2.counters.InsertQuery
          = w.counters.InsertQuery
            + qs.countP (fun q => decide (q.1.typeid = ASTType.ASTInsertQuery)) := by
  induction qs generalizing w with
  | nil => simp [dispatchAll]
  | cons q rest ih =>
    obtain ⟨⟨t, id⟩, stage⟩ := q
    have hrest : ∀ q ∈ rest, q.1.typeid ∈ [ASTType.ASTSelectQuery,
        ASTType.ASTSelectWithUnionQuery, ASTType.ASTInsertQuery] :=
      fun q hq => hkind q (List.mem_cons_of_mem _ hq)
    have ht := hkind _ (List.mem_cons_self _ _)
    simp only [List.mem_cons, List.mem_singleton, List.not_mem_nil, or_false] at ht
    rcases ht with h | h | h <;> subst h <;>
      simp [dispatchAll, InterpreterFactory.get, typeid_cast, hctor, Constructors.run,
        ProfileEvents.Counters.increment, ih _ hrest, List.countP_cons] <;>
      omega

/-- Witness of C8: a Select, two SelectWithUnion and an Insert statement
raise `Query` by four, `SelectQuery` by two and `InsertQuery` by one. -/
theorem dispatchAll_counters_witness :
    ((dispatchAll Constructors.succeed
        [(Example.stmt ASTType.ASTSelectQuery, 0),
         (Example.stmt ASTType.ASTSelectWithUnionQuery, 2),
         (Example.stmt ASTType.ASTInsertQuery, 2),
         (Example.stmt ASTType.ASTSelectWithUnionQuery, 1)]).exec Example.unrestricted).1
        = Except.ok ()
      ∧ ((dispatchAll Constructors.succeed
        [(Example.stmt ASTType.ASTSelectQuery, 0),
         (Example.stmt ASTType.ASTSelectWithUnionQuery, 2),
         (Example.stmt ASTType.ASTInsertQuery, 2),
         (Example.stmt ASTType.ASTSelectWithUnionQuery, 1)]).exec
          Example.unrestricted).2.counters.Query = 0 + 4
      ∧ ((dispatchAll Constructors.succeed
        [(Example.stmt ASTType.ASTSelectQuery, 0),
         (Example.stmt ASTType.ASTSelectWithUnionQuery, 2),
         (Example.stmt ASTType.ASTInsertQuery, 2),
         (Example.stmt ASTType.ASTSelectWithUnionQuery, 1)]).exec
          Example.unrestricted).2.counters.SelectQuery = 0 + 2
      ∧ ((dispatchAll Constructors.succeed
        [(Example.stmt ASTType.ASTSelectQuery, 0),
         (Example.stmt ASTType.ASTSelectWithUnionQuery, 2),
         (Example.stmt ASTType.ASTInsertQuery, 2),
         (Example.stmt ASTType.ASTSelectWithUnionQuery, 1)]).exec
          Example.unrestricted).2.counters.InsertQuery = 0 + 1 :=
  dispatchAll_counters Constructors.succeed
    [(Example.stmt ASTType.ASTSelectQuery, 0),
     (Example.stmt ASTType.ASTSelectWithUnionQuery, 2),
     (Example.stmt ASTType.ASTInsertQuery, 2),
     (Example.stmt ASTType.ASTSelectWithUnionQuery, 1)] Example.unrestricted
    (fun _ => rfl) (by decide)

/-! ## Dispatch of the ungated kinds -/

/-- C9: for a statement of an ungated kind and every context, however
restrictive, dispatch makes exactly one call, the constructor of the handler
matching the kind, built from this statement; the gate is not called, and
the outcome is the constructor's, so the handler is returned once its
constructor completes. -/
theorem get_ungated_skips_gate (ctor : Constructors) (query : ASTPtr)
    (stage : QueryProcessingStage.Enum) (w : World)
    (hkind : query.typeid ∈ Spec.ungated) :
    ∃ h, ((InterpreterFactory.get ctor query stage).exec w).2.calls
          = w.calls ++ [Call.make_unique h]
      ∧ h.query = query
      ∧ Spec.handlerType query.typeid = some h.type
      ∧ ((InterpreterFactory.get ctor query stage).exec w).1 = ctor.run h
      ∧ (ctor h = none →
          ((InterpreterFactory.get ctor query stage).exec w).1 = Except.ok h) := by
  obtain ⟨t, id⟩ := query
  cases t <;>
    simp [Spec.ungated] at hkind <;>
    simp [InterpreterFactory.get, typeid_cast, IInterpreter.query, IInterpreter.type,
      Spec.handlerType]

/-- Witness of C9: a KillQuery statement on a session that is read-only and
has DDL disallowed, over HTTP GET. -/
theorem get_ungated_skips_gate_witness :
    ∃ h, ((InterpreterFactory.get Constructors.succeed
            (Example.stmt ASTType.ASTKillQueryQuery) 0).exec Example.httpGetReadonly).2.calls
          = Example.httpGetReadonly.calls ++ [Call.make_unique h]
      ∧ h.query = Example.stmt ASTType.ASTKillQueryQuery
      ∧ Spec.handlerType (Example.stmt ASTType.ASTKillQueryQuery).typeid = some h.type
      ∧ ((InterpreterFactory.get Constructors.succeed
            (Example.stmt ASTType.ASTKillQueryQuery) 0).exec Example.httpGetReadonly).1
          = Constructors.succeed.run h
      ∧ (Constructors.succeed h = none →
          ((InterpreterFactory.get Constructors.succeed
            (Example.stmt ASTType.ASTKillQueryQuery) 0).exec Example.httpGetReadonly).1
            = Except.ok h) :=
  get_ungated_skips_gate Constructors.succeed (Example.stmt ASTType.ASTKillQueryQuery) 0
    Example.httpGetReadonly (by decide)

/-! ## The total counter on every path -/

/-- C10: every call of dispatch raises the counter `Query` by exactly one,
whatever the statement, the context and the behaviour of the constructors:
also when the gate rejects and when the kind is unknown.  When the gate
rejects a Rename, Optimize, Alter or System statement, dispatch ends with
the gate's exception, no constructor has been called, and `SelectQuery` and
`InsertQuery` are unchanged. -/
theorem get_increments_Query_once (ctor : Constructors) (query : ASTPtr)
    (stage : QueryProcessingStage.Enum) (w : World) :
    ((InterpreterFactory.get ctor query stage).exec w).2.counters.Query
        = w.counters.Query + 1
      ∧ (query.typeid ∈ Spec.centrallyGated →
          ∀ e, (throwIfNoAccess.exec w).1 = Except.error e →
            ((InterpreterFactory.get ctor query stage).exec w).1 = Except.error e
            ∧ ((InterpreterFactory.get ctor query stage).exec w).2.calls
                = w.calls ++ [Call.throwIfNoAccess]
            ∧ ((InterpreterFactory.get ctor query stage).exec w).2.counters.SelectQuery
                = w.counters.SelectQuery
            ∧ ((InterpreterFactory.get ctor query stage).exec w).2.counters.InsertQuery
                = w.counters.InsertQuery) := by
  by_cases hkind : query.typeid ∈ Spec.centrallyGated
  · obtain ⟨t, id⟩ := query
    simp only [hkind, true_implies]
    simp only [Spec.centrallyGated, List.mem_cons, List.mem_singleton, List.not_mem_nil,
      or_false] at hkind
    by_cases hro : w.context.getSettingsRef.readonly = 0 <;>
      by_cases hget : w.context.getClientInfo.interface = ClientInfo.Interface.HTTP
          ∧ w.context.getClientInfo.http_method = ClientInfo.HTTPMethod.GET <;>
      cases hddl : w.context.getSettingsRef.allow_ddl <;>
      rcases hkind with h | h | h | h <;> subst h <;>
      simp [InterpreterFactory.get, typeid_cast, throwIfNoAccess, hro, hget, hddl,
        ProfileEvents.Counters.increment]
  · obtain ⟨t, id⟩ := query
    refine ⟨?_, fun h => absurd h hkind⟩
    cases t <;> simp [Spec.centrallyGated] at hkind <;>
      simp [InterpreterFactory.get, typeid_cast, ProfileEvents.Counters.increment]

/-- Witness of C10: a Rename statement rejected by the gate on a read-only
session still raises `Query` by one, and nothing else. -/
theorem get_increments_Query_once_witness :
    ((InterpreterFactory.get Constructors.succeed
          (Example.stmt ASTType.ASTRenameQuery) 0).exec Example.nativeReadonly).2.counters.Query
        = Example.nativeReadonly.counters.Query + 1
      ∧ ((InterpreterFactory.get Constructors.succeed
          (Example.stmt ASTType.ASTRenameQuery) 0).exec Example.nativeReadonly).1
          = Except.error ⟨"Cannot execute query in readonly mode", ErrorCodes.READONLY⟩
      ∧ ((InterpreterFactory.get Constructors.succeed
          (Example.stmt ASTType.ASTRenameQuery) 0).exec Example.nativeReadonly).2.calls
          = Example.nativeReadonly.calls ++ [Call.throwIfNoAccess]
      ∧ ((InterpreterFactory.get Constructors.succeed
          (Example.stmt ASTType.ASTRenameQuery) 0).exec
            Example.nativeReadonly).2.counters.SelectQuery
          = Example.nativeReadonly.counters.SelectQuery
      ∧ ((InterpreterFactory.get Constructors.succeed
          (Example.stmt ASTType.ASTRenameQuery) 0).exec
            Example.nativeReadonly).2.counters.InsertQuery
          = Example.nativeReadonly.counters.InsertQuery :=
  ⟨(get_increments_Query_once Constructors.succeed (Example.stmt ASTType.ASTRenameQuery) 0
      Example.nativeReadonly).1,
   (get_increments_Query_once Constructors.succeed (Example.stmt ASTType.ASTRenameQuery) 0
      Example.nativeReadonly).2 (by decide) _ rfl⟩

/-! ## The gate reads the context and nothing else -/

theorem throwIfNoAccess_world (w : World) :
    (throwIfNoAccess.exec w).2 = { w with calls := w.calls ++ [Call.throwIfNoAccess] } := by
  by_cases hro : w.context.getSettingsRef.readonly = 0
  · cases hddl : w.context.getSettingsRef.allow_ddl <;>
      simp [throwIfNoAccess, hro, hddl]
  · by_cases hget : w.context.getClientInfo.interface = ClientInfo.Interface.HTTP
        ∧ w.context.getClientInfo.http_method = ClientInfo.HTTPMethod.GET <;>
      simp [throwIfNoAccess, hro, hget]

theorem throwIfNoAccess_decision_congr (w w2 : World) (h : w2.context = w.context) :
    (throwIfNoAccess.exec w2).1 = (throwIfNoAccess.exec w).1 := by
  by_cases hro : w.context.getSettingsRef.readonly = 0
  · cases hddl : w.context.getSettingsRef.allow_ddl <;>
      simp [throwIfNoAccess, h, hro, hddl]
  · by_cases hget : w.context.getClientInfo.interface = ClientInfo.Interface.HTTP
        ∧ w.context.getClientInfo.http_method = ClientInfo.HTTPMethod.GET <;>
      simp [throwIfNoAccess, h, hro, hget]

theorem exec_throwIfNoAccess (w : World) :
    throwIfNoAccess.exec w
      = (throwIfNoAccess.decision w.context,
         { w with calls := w.calls ++ [Call.throwIfNoAccess] }) :=
  Prod.ext (throwIfNoAccess_decision_congr ⟨w.context, ⟨0, 0, 0⟩, []⟩ w rfl)
    (throwIfNoAccess_world w)

/-- C12: the gate is idempotent: run a second time from the world the first
run left, it gives the same decision, that is, the same success or the same
exception with the same code and message; more generally its decision is
the same from any two worlds with the same context, so nothing but the
context decides it. -/
theorem throwIfNoAccess_idempotent (w : World) :
    (throwIfNoAccess.exec (throwIfNoAccess.exec w).2).1 = (throwIfNoAccess.exec w).1
      ∧ (throwIfNoAccess.exec w).2.context = w.context
      ∧ ∀ w2 : World, w2.context = w.context →
          (throwIfNoAccess.exec w2).1 = (throwIfNoAccess.exec w).1 := by
  have hctx : (throwIfNoAccess.exec w).2.context = w.context := by
    rw [throwIfNoAccess_world]
  exact ⟨throwIfNoAccess_decision_congr w _ hctx, hctx,
    fun w2 h => throwIfNoAccess_decision_congr w w2 h⟩

/-- Witness of C12: on a read-only HTTP GET session the second call throws
the same exception as the first, and so does a call from a world that
differs in its counters only. -/
theorem throwIfNoAccess_idempotent_witness :
    (throwIfNoAccess.exec (throwIfNoAccess.exec Example.httpGetReadonly).2).1
        = (throwIfNoAccess.exec Example.httpGetReadonly).1
      ∧ (throwIfNoAccess.exec
          { Example.httpGetReadonly with counters := ⟨7, 3, 2⟩ }).1
        = (throwIfNoAccess.exec Example.httpGetReadonly).1 :=
  ⟨(throwIfNoAccess_idempotent Example.httpGetReadonly).1,
   (throwIfNoAccess_idempotent Example.httpGetReadonly).2.2
      { Example.httpGetReadonly with counters := ⟨7, 3, 2⟩ } rfl⟩

/-- C15: for two contexts that agree on `readonly` and `allow_ddl`, whatever
their client interface and HTTP method, the gate either succeeds on both or
fails on both with the same error code; when `readonly` is unset the two
outcomes are equal altogether, so the client interface and the HTTP method
can only change the message of the read-only exception. -/
theorem throwIfNoAccess_client_noninterference (w1 w2 : World)
    (hro : w1.context.getSettingsRef.readonly = w2.context.getSettingsRef.readonly)
    (hddl : w1.context.getSettingsRef.allow_ddl = w2.context.getSettingsRef.allow_ddl) :
    errorCode (throwIfNoAccess.exec w1).1 = errorCode (throwIfNoAccess.exec w2).1
      ∧ ((throwIfNoAccess.exec w1).1 = Except.ok ()
          ↔ (throwIfNoAccess.exec w2).1 = Except.ok ())
      ∧ (w1.context.getSettingsRef.readonly = 0 →
          (throwIfNoAccess.exec w1).1 = (throwIfNoAccess.exec w2).1)
      ∧ (∀ e1 e2, (throwIfNoAccess.exec w1).1 = Except.error e1 →
          (throwIfNoAccess.exec w2).1 = Except.error e2 →
          e1.code = e2.code ∧ (e1.message ≠ e2.message → e1.code = ErrorCodes.READONLY)) := by
  by_cases h0 : w2.context.getSettingsRef.readonly = 0
  · cases hd : w2.context.getSettingsRef.allow_ddl <;>
      simp [throwIfNoAccess, errorCode, hro, hddl, h0, hd]
  · by_cases hget1 : w1.context.getClientInfo.interface = ClientInfo.Interface.HTTP
        ∧ w1.context.getClientInfo.http_method = ClientInfo.HTTPMethod.GET <;>
      by_cases hget2 : w2.context.getClientInfo.interface = ClientInfo.Interface.HTTP
        ∧ w2.context.getClientInfo.http_method = ClientInfo.HTTPMethod.GET <;>
      simp [throwIfNoAccess, errorCode, hro, h0, hget1, hget2]

/-- Witness of C15: a read-only session over HTTP GET and one over HTTP POST
get the same error code, `READONLY`. -/
theorem throwIfNoAccess_client_noninterference_witness :
    errorCode (throwIfNoAccess.exec
        (Example.world 1 true ClientInfo.Interface.HTTP ClientInfo.HTTPMethod.GET)).1
      = errorCode (throwIfNoAccess.exec Example.httpPostReadonly).1 :=
  (throwIfNoAccess_client_noninterference
    (Example.world 1 true ClientInfo.Interface.HTTP ClientInfo.HTTPMethod.GET)
    Example.httpPostReadonly rfl rfl).1

/-! ## Frame: what the gate and dispatch leave unchanged -/

/-- C13: the gate and dispatch only read the context: the world the gate
leaves has the same context (hence the same `readonly`, `allow_ddl`,
`insert_allow_materialized_columns`, client interface and HTTP method) and
the same counters as the world it started from, and the world dispatch
leaves has the same context, for every statement, stage, context and
behaviour of the constructors. -/
theorem context_only_read (ctor : Constructors) (query : ASTPtr)
    (stage : QueryProcessingStage.Enum) (w : World) :
    (throwIfNoAccess.exec w).2.context = w.context
      ∧ (throwIfNoAccess.exec w).2.counters = w.counters
      ∧ ((InterpreterFactory.get ctor query stage).exec w).2.context = w.context := by
  refine ⟨by rw [throwIfNoAccess_world], by rw [throwIfNoAccess_world], ?_⟩
  obtain ⟨t, id⟩ := query
  by_cases hkind : t ∈ Spec.centrallyGated
  · simp only [Spec.centrallyGated, List.mem_cons, List.mem_singleton, List.not_mem_nil,
      or_false] at hkind
    by_cases hro : w.context.getSettingsRef.readonly = 0 <;>
      by_cases hget : w.context.getClientInfo.interface = ClientInfo.Interface.HTTP
          ∧ w.context.getClientInfo.http_method = ClientInfo.HTTPMethod.GET <;>
      cases hddl : w.context.getSettingsRef.allow_ddl <;>
      rcases hkind with h | h | h | h <;> subst h <;>
      simp [InterpreterFactory.get, typeid_cast, throwIfNoAccess, hro, hget, hddl]
  · cases t <;> simp [Spec.centrallyGated] at hkind <;>
      simp [InterpreterFactory.get, typeid_cast]

/-- C16: whatever the statement, the context and the behaviour of the
constructors, dispatch raises `SelectQuery` by one when the kind is
SelectWithUnion and leaves it unchanged otherwise, and raises `InsertQuery`
by one when the kind is Insert and leaves it unchanged otherwise. -/
theorem get_kind_counters (ctor : Constructors) (query : ASTPtr)
    (stage : QueryProcessingStage.Enum) (w : World) :
    ((InterpreterFactory.get ctor query stage).exec w).2.counters.SelectQuery
        = w.counters.SelectQuery
          + (if query.typeid = ASTType.ASTSelectWithUnionQuery then 1 else 0)
      ∧ ((InterpreterFactory.get ctor query stage).exec w).2.counters.InsertQuery
        = w.counters.InsertQuery
          + (if query.typeid = ASTType.ASTInsertQuery then 1 else 0) := by
  obtain ⟨t, id⟩ := query
  by_cases hkind : t ∈ Spec.centrallyGated
  · simp only [Spec.centrallyGated, List.mem_cons, List.mem_singleton, List.not_mem_nil,
      or_false] at hkind
    by_cases hro : w.context.getSettingsRef.readonly = 0 <;>
      by_cases hget : w.context.getClientInfo.interface = ClientInfo.Interface.HTTP
          ∧ w.context.getClientInfo.http_method = ClientInfo.HTTPMethod.GET <;>
      cases hddl : w.context.getSettingsRef.allow_ddl <;>
      rcases hkind with h | h | h | h <;> subst h <;>
      simp [InterpreterFactory.get, typeid_cast, throwIfNoAccess, hro, hget, hddl,
        ProfileEvents.Counters.increment]
  · cases t <;> simp [Spec.centrallyGated] at hkind <;>
      simp [InterpreterFactory.get, typeid_cast, ProfileEvents.Counters.increment]

/-! ## When dispatch fails, and with which code -/

/-- C14: with the constructors completing, dispatch fails exactly when the
kind is outside the closed set, or is Rename, Optimize, Alter or System with
`readonly` set or `allow_ddl` false.  The code is `UNKNOWN_TYPE_OF_QUERY`
exactly in the first case, `READONLY` exactly for those four kinds with
`readonly` set, and `QUERY_IS_PROHIBITED` exactly for those four kinds with
`readonly` unset and `allow_ddl` false. -/
theorem get_failure_characterisation (ctor : Constructors) (query : ASTPtr)
    (stage : QueryProcessingStage.Enum) (w : World)
    (hctor : ∀ h, ctor h = none) :
    ((∃ e, ((InterpreterFactory.get ctor query stage).exec w).1 = Except.error e) ↔
        (query.typeid ∉ Spec.closedSet
          ∨ (query.typeid ∈ Spec.centrallyGated
              ∧ (w.context.getSettingsRef.readonly ≠ 0
                  ∨ w.context.getSettingsRef.allow_ddl = false))))
      ∧ (errorCode ((InterpreterFactory.get ctor query stage).exec w).1
            = some ErrorCodes.UNKNOWN_TYPE_OF_QUERY ↔
          query.typeid ∉ Spec.closedSet)
      ∧ (errorCode ((InterpreterFactory.get ctor query stage).exec w).1
            = some ErrorCodes.READONLY ↔
          (query.typeid ∈ Spec.centrallyGated ∧ w.context.getSettingsRef.readonly ≠ 0))
      ∧ (errorCode ((InterpreterFactory.get ctor query stage).exec w).1
            = some ErrorCodes.QUERY_IS_PROHIBITED ↔
          (query.typeid ∈ Spec.centrallyGated ∧ w.context.getSettingsRef.readonly = 0
            ∧ w.context.getSettingsRef.allow_ddl = false)) := by
  obtain ⟨t, id⟩ := query
  by_cases hkind : t ∈ Spec.centrallyGated
  · simp only [Spec.centrallyGated, List.mem_cons, List.mem_singleton, List.not_mem_nil,
      or_false] at hkind
    by_cases hro : w.context.getSettingsRef.readonly = 0 <;>
      by_cases hget : w.context.getClientInfo.interface = ClientInfo.Interface.HTTP
          ∧ w.context.getClientInfo.http_method = ClientInfo.HTTPMethod.GET <;>
      cases hddl : w.context.getSettingsRef.allow_ddl <;>
      rcases hkind with h | h | h | h <;> subst h <;>
      simp [InterpreterFactory.get, typeid_cast, throwIfNoAccess, hro, hget, hddl,
        Constructors.run, hctor, errorCode, Spec.centrallyGated, Spec.closedSet]
  · cases t <;> simp [Spec.centrallyGated] at hkind <;>
      simp [InterpreterFactory.get, typeid_cast, Constructors.run, hctor, errorCode,
        Spec.centrallyGated, Spec.closedSet]

/-- Witness of C14: with the constructors completing, an Optimize statement
on a session with only DDL disallowed fails, with `QUERY_IS_PROHIBITED`. -/
theorem get_failure_characterisation_witness :
    errorCode ((InterpreterFactory.get Constructors.succeed
        (Example.stmt ASTType.ASTOptimizeQuery) 0).exec Example.noDdl).1
      = some ErrorCodes.QUERY_IS_PROHIBITED :=
  (get_failure_characterisation Constructors.succeed
    (Example.stmt ASTType.ASTOptimizeQuery) 0 Example.noDdl (fun _ => rfl)).2.2.2.2
    (by decide)

/-! ## The arguments handed to the constructors -/

/-- C11: dispatch forwards the construction arguments exactly.  For Select
and SelectWithUnion the one constructor call has the statement, the context,
an empty list of column names and the stage given to dispatch; for Insert it
has the statement, the context and the context's
`insert_allow_materialized_columns`.  For every kind, a handler that
dispatch constructs or returns is built from this statement and this
context, and for a kind other than those three it gets nothing else. -/
theorem get_forwards_arguments (ctor : Constructors) (query : ASTPtr)
    (stage : QueryProcessingStage.Enum) (w : World) :
    (query.typeid = ASTType.ASTSelectQuery →
        ((InterpreterFactory.get ctor query stage).exec w).2.calls
            = w.calls ++ [Call.make_unique
                (IInterpreter.InterpreterSelectQuery query w.context [] stage)]
          ∧ ((InterpreterFactory.get ctor query stage).exec w).1
            = ctor.run (IInterpreter.InterpreterSelectQuery query w.context [] stage))
      ∧ (query.typeid = ASTType.ASTSelectWithUnionQuery →
        ((InterpreterFactory.get ctor query stage).exec w).2.calls
            = w.calls ++ [Call.make_unique
                (IInterpreter.InterpreterSelectWithUnionQuery query w.context [] stage)]
          ∧ ((InterpreterFactory.get ctor query stage).exec w).1
            = ctor.run (IInterpreter.InterpreterSelectWithUnionQuery query w.context [] stage))
      ∧ (query.typeid = ASTType.ASTInsertQuery →
        ((InterpreterFactory.get ctor query stage).exec w).2.calls
            = w.calls ++ [Call.make_unique
                (IInterpreter.InterpreterInsertQuery query w.context
                  w.context.getSettingsRef.insert_allow_materialized_columns)]
          ∧ ((InterpreterFactory.get ctor query stage).exec w).1
            = ctor.run (IInterpreter.InterpreterInsertQuery query w.context
                  w.context.getSettingsRef.insert_allow_materialized_columns))
      ∧ (∀ (new : List Call) (h : IInterpreter),
          ((InterpreterFactory.get ctor query stage).exec w).2.calls = w.calls ++ new →
          Call.make_unique h ∈ new →
            h.query = query ∧ h.context = w.context
            ∧ (query.typeid ∉ [ASTType.ASTSelectQuery, ASTType.ASTSelectWithUnionQuery,
                  ASTType.ASTInsertQuery] → h.extra = ExtraArguments.nothing))
      ∧ (∀ h : IInterpreter,
          ((InterpreterFactory.get ctor query stage).exec w).1 = Except.ok h →
            h.query = query ∧ h.context = w.context
            ∧ (query.typeid ∉ [ASTType.ASTSelectQuery, ASTType.ASTSelectWithUnionQuery,
                  ASTType.ASTInsertQuery] → h.extra = ExtraArguments.nothing)) := by
  obtain ⟨t, id⟩ := query
  generalize hr : (InterpreterFactory.get ctor ⟨t, id⟩ stage).exec w = r
  by_cases hkind : t ∈ Spec.centrallyGated
  · simp only [Spec.centrallyGated, List.mem_cons, List.mem_singleton, List.not_mem_nil,
      or_false] at hkind
    cases hd : throwIfNoAccess.decision w.context <;>
      rcases hkind with h | h | h | h <;> subst h <;>
      simp [InterpreterFactory.get, typeid_cast, exec_throwIfNoAccess, hd] at hr <;>
      subst hr <;>
      refine ⟨by simp, by simp, by simp, ?_, ?_⟩
    all_goals first
      | (intro new h hnew hmem
         simp at hnew
         subst hnew
         simp at hmem
         all_goals (subst hmem; simp [IInterpreter.query, IInterpreter.context, IInterpreter.extra]))
      | (intro h hok
         simp at hok
         all_goals (obtain ⟨_, rfl⟩ := hok
                    simp [IInterpreter.query, IInterpreter.context, IInterpreter.extra]))
  · cases t <;> simp [Spec.centrallyGated] at hkind <;>
      simp [InterpreterFactory.get, typeid_cast] at hr <;>
      subst hr <;>
      refine ⟨by simp, by simp, by simp, ?_, ?_⟩
    all_goals first
      | (intro new h hnew hmem
         simp at hnew
         subst hnew
         simp at hmem
         all_goals (subst hmem; simp [IInterpreter.query, IInterpreter.context, IInterpreter.extra]))
      | (intro h hok
         simp at hok
         all_goals (obtain ⟨_, rfl⟩ := hok
                    simp [IInterpreter.query, IInterpreter.context, IInterpreter.extra]))

/-- Witness of C11: a Select statement dispatched with stage 2 reaches its
constructor with no column names and stage 2, and an Insert statement
reaches its constructor with the flag of the context, here `true`. -/
theorem get_forwards_arguments_witness :
    ((InterpreterFactory.get Constructors.succeed
        (Example.stmt ASTType.ASTSelectQuery) 2).exec Example.unrestricted).2.calls
        = Example.unrestricted.calls ++ [Call.make_unique
            (IInterpreter.InterpreterSelectQuery (Example.stmt ASTType.ASTSelectQuery)
              Example.unrestricted.context [] 2)]
      ∧ ((InterpreterFactory.get Constructors.succeed
        (Example.stmt ASTType.ASTInsertQuery) 2).exec Example.httpGetReadonly).2.calls
        = Example.httpGetReadonly.calls ++ [Call.make_unique
            (IInterpreter.InterpreterInsertQuery (Example.stmt ASTType.ASTInsertQuery)
              Example.httpGetReadonly.context true)] :=
  ⟨((get_forwards_arguments Constructors.succeed (Example.stmt ASTType.ASTSelectQuery) 2
      Example.unrestricted).1 rfl).1,
   ((get_forwards_arguments Constructors.succeed (Example.stmt ASTType.ASTInsertQuery) 2
      Example.httpGetReadonly).2.2.1 rfl).1⟩

end DB
